import Mathlib

/-!
# Arena allocator of `src/main.c`

A shallow embedding of the bump allocator (`Arena_init`, `Arena_alloc`,
`Arena_clear`, `Arena_snapshot`, `Arena_rollback`) and the properties claimed
about it.

Modelling conventions.

* `u64` (`unsigned long`) values and `char*` addresses are natural numbers
  below `2^64`; every C operation on them is written with an explicit
  reduction modulo `2^64`, which is what the 64-bit target computes.
* `NULL` is the address `0`; `MAP_FAILED` is `(void*)-1`, the address
  `2^64 - 1`.
* A C function that receives `Arena*` is a function from the arena value to
  its result together with the arena value afterwards.
* The `printf` of `Arena_alloc` is recorded as the pair of its two arguments.
-/

namespace ShadyBussiness

/-! ## Machine arithmetic -/

/-- Number of values of the C type `u64` (`unsigned long`, 64 bits). -/
def U64_MOD : Nat := 18446744073709551616

/-- The null pointer. -/
def NULL : Nat := 0

/-- Value of `MAP_FAILED`, that is `(void*)-1`, returned by `mmap` on failure. -/
def MAP_FAILED : Nat := 18446744073709551615

/-- Sum of two 64-bit values as the machine computes it (`a + b`, and
`p += b` for a `char*`). -/
def add64 (a b : Nat) : Nat := (a + b) % U64_MOD

/-- Difference of two 64-bit values as the machine computes it, read as an
unsigned 64-bit value (`p - q` for two `char*`, converted to `u64`, and
`a - b` for `u64`). -/
def sub64 (a b : Nat) : Nat := (a + U64_MOD - b % U64_MOD) % U64_MOD

/-! ## Data model -/

/-- The C `struct Arena`: `start_ptr` (base), `fill_ptr` (cursor), `capacity`. -/
structure Arena where
  start_ptr : Nat
  fill_ptr : Nat
  capacity : Nat
  deriving DecidableEq, Repr

/-- What one call of `Arena_alloc` produces: the returned pointer, the arena
afterwards, and the two arguments of the rejection `printf` when it ran
(requested bytes, bytes left). -/
structure AllocResult where
  memory : Nat
  arena : Arena
  printed : Option (Nat × Nat)
  deriving DecidableEq, Repr

/-! ## Operations -/

/-- Model of `Arena_init`: the value returned by `mmap` is an input. The C
function stores it in `start_ptr` and `fill_ptr` without looking at it. -/
def Arena_init (mmap_result : Nat) (capacity : Nat) : Arena :=
  { start_ptr := mmap_result, fill_ptr := mmap_result, capacity := capacity }

/-- Model of `Arena_alloc`: the fit test `fill_ptr - start_ptr + bytes > capacity` in
64-bit unsigned arithmetic, then the bump of `fill_ptr`. -/
def Arena_alloc (arena : Arena) (bytes : Nat) : AllocResult :=
  if add64 (sub64 arena.fill_ptr arena.start_ptr) bytes > arena.capacity then
    { memory := NULL
      arena := arena
      printed := some (bytes, sub64 arena.capacity (sub64 arena.fill_ptr arena.start_ptr)) }
  else
    { memory := arena.fill_ptr
      arena := { arena with fill_ptr := add64 arena.fill_ptr bytes }
      printed := none }

/-- Model of `Arena_clear`: the cursor goes back to the base. -/
def Arena_clear (arena : Arena) : Arena :=
  { arena with fill_ptr := arena.start_ptr }

/-- Model of `Arena_snapshot`: returns the cursor; the arena is not written. -/
def Arena_snapshot (arena : Arena) : Nat × Arena :=
  (arena.fill_ptr, arena)

/-- Model of `Arena_rollback`: the cursor becomes the snapshot. -/
def Arena_rollback (arena : Arena) (snapshot : Nat) : Arena :=
  { arena with fill_ptr := snapshot }

/-! ## Predicates on arena states -/

/-- The data model's reading of `base`: the start of a contiguous region of
`capacity` bytes of the 64-bit address space, as a successful `mmap` hands
out. Such a start is not `NULL` and the one-past-the-end address
`start_ptr + capacity` is itself a 64-bit address. -/
def Arena.mapped (a : Arena) : Prop :=
  NULL < a.start_ptr ∧ a.start_ptr + a.capacity < U64_MOD

/-- The cursor bounds `base <= cursor <= base + capacity`. -/
def Arena.inv (a : Arena) : Prop :=
  a.start_ptr ≤ a.fill_ptr ∧ a.fill_ptr ≤ a.start_ptr + a.capacity

instance (a : Arena) : Decidable a.mapped := by
  unfold Arena.mapped; infer_instance

instance (a : Arena) : Decidable a.inv := by
  unfold Arena.inv; infer_instance

/-! ## Sequences of calls -/

/-- Runs `Arena_alloc` on each size in order and records, for every call, the
requested size together with what the call produced. -/
def Arena_alloc_seq : Arena → List Nat → List (Nat × AllocResult)
  | _, [] => []
  | a, bytes :: rest => (bytes, Arena_alloc a bytes) :: Arena_alloc_seq (Arena_alloc a bytes).arena rest

/-- The arena after running `Arena_alloc` on each size in order. -/
def Arena_alloc_all : Arena → List Nat → Arena
  | a, [] => a
  | a, bytes :: rest => Arena_alloc_all (Arena_alloc a bytes).arena rest

/-- Two half-open byte regions `[p, p + n)` and `[q, q + m)` lie one after the
other, in either order. -/
def regions_disjoint (p n q m : Nat) : Prop :=
  p + n ≤ q ∨ q + m ≤ p

instance (p n q m : Nat) : Decidable (regions_disjoint p n q m) := by
  unfold regions_disjoint; infer_instance

/-- The scratch use of the arena in `compile_shader`: snapshot, one
allocation for the message, rollback. `bytes` is the 64-bit value of
`length * sizeof(char)`. -/
def compile_shader_scratch (arena_all : Arena) (bytes : Nat) : Arena :=
  Arena_rollback (Arena_alloc (Arena_snapshot arena_all).2 bytes).arena
    (Arena_snapshot arena_all).1

/-! ### The scenario of the specification, call by call -/

/-- First `init(1024)` on a reservation at `b`, then `alloc(100)`. -/
def scenario_alloc100 (b : Nat) : AllocResult := Arena_alloc (Arena_init b 1024) 100

/-- Then `alloc(1000)`. -/
def scenario_alloc1000 (b : Nat) : AllocResult := Arena_alloc (scenario_alloc100 b).arena 1000

/-- Then `snapshot`. -/
def scenario_snapshot (b : Nat) : Nat × Arena := Arena_snapshot (scenario_alloc1000 b).arena

/-- Then `alloc(50)`. -/
def scenario_alloc50 (b : Nat) : AllocResult := Arena_alloc (scenario_snapshot b).2 50

/-- Then `rollback` to the snapshot. -/
def scenario_rollback (b : Nat) : Arena :=
  Arena_rollback (scenario_alloc50 b).arena (scenario_snapshot b).1

/-- Then `alloc(924)`. -/
def scenario_alloc924 (b : Nat) : AllocResult := Arena_alloc (scenario_rollback b) 924

/-- Then `alloc(1)`. -/
def scenario_alloc1 (b : Nat) : AllocResult := Arena_alloc (scenario_alloc924 b).arena 1

/-! ## Basic facts -/

/-- Without borrow the 64-bit difference is the difference of naturals. -/
theorem sub64_of_le {a b : Nat} (hb : b ≤ a) (ha : a < U64_MOD) : sub64 a b = a - b := by
  unfold sub64 U64_MOD at *
  omega

/-- Without carry the 64-bit sum is the sum of naturals. -/
theorem add64_of_lt {a b : Nat} (h : a + b < U64_MOD) : add64 a b = a + b := by
  unfold add64 U64_MOD at *
  omega

/-- The accepting branch of `Arena_alloc`. -/
theorem Arena_alloc_accept {a : Arena} {bytes : Nat}
    (h : add64 (sub64 a.fill_ptr a.start_ptr) bytes ≤ a.capacity) :
    Arena_alloc a bytes =
      { memory := a.fill_ptr
        arena := { a with fill_ptr := add64 a.fill_ptr bytes }
        printed := none } := by
  unfold Arena_alloc
  rw [if_neg (Nat.not_lt.mpr h)]

/-- The rejecting branch of `Arena_alloc`. -/
theorem Arena_alloc_reject {a : Arena} {bytes : Nat}
    (h : a.capacity < add64 (sub64 a.fill_ptr a.start_ptr) bytes) :
    Arena_alloc a bytes =
      { memory := NULL
        arena := a
        printed := some (bytes, sub64 a.capacity (sub64 a.fill_ptr a.start_ptr)) } := by
  unfold Arena_alloc
  rw [if_pos h]

/-- The base is never written by `Arena_alloc`. -/
theorem Arena_alloc_start_ptr (a : Arena) (bytes : Nat) :
    (Arena_alloc a bytes).arena.start_ptr = a.start_ptr := by
  unfold Arena_alloc
  split <;> rfl

/-- The capacity is never written by `Arena_alloc`. -/
theorem Arena_alloc_capacity (a : Arena) (bytes : Nat) :
    (Arena_alloc a bytes).arena.capacity = a.capacity := by
  unfold Arena_alloc
  split <;> rfl

/-- On a mapped arena within its bounds the pointer difference of the fit
test is the number of bytes used. -/
theorem sub64_fill_start {a : Arena} (hm : a.mapped) (hi : a.inv) :
    sub64 a.fill_ptr a.start_ptr = a.fill_ptr - a.start_ptr := by
  obtain ⟨_, h2⟩ := hm
  obtain ⟨h3, h4⟩ := hi
  exact sub64_of_le h3 (by omega)

/-- A request that fits is accepted and bumps the cursor by exactly its size. -/
theorem Arena_alloc_of_fits {a : Arena} {bytes : Nat} (hm : a.mapped) (hi : a.inv)
    (hfit : (a.fill_ptr - a.start_ptr) + bytes ≤ a.capacity) :
    Arena_alloc a bytes =
      { memory := a.fill_ptr
        arena := { a with fill_ptr := a.fill_ptr + bytes }
        printed := none } := by
  have hs := sub64_fill_start hm hi
  obtain ⟨_, h2⟩ := hm
  obtain ⟨h3, h4⟩ := hi
  have h5 : add64 (a.fill_ptr - a.start_ptr) bytes = (a.fill_ptr - a.start_ptr) + bytes :=
    add64_of_lt (by omega)
  have h6 : add64 a.fill_ptr bytes = a.fill_ptr + bytes := add64_of_lt (by omega)
  rw [Arena_alloc_accept (by rw [hs, h5]; exact hfit), h6]

/-- A request that does not fit, and whose size added to the bytes used does
not exceed the 64-bit range, is rejected and leaves the arena as it was. -/
theorem Arena_alloc_of_too_big {a : Arena} {bytes : Nat} (hm : a.mapped) (hi : a.inv)
    (hbig : a.capacity - (a.fill_ptr - a.start_ptr) < bytes)
    (hrange : (a.fill_ptr - a.start_ptr) + bytes < U64_MOD) :
    Arena_alloc a bytes =
      { memory := NULL
        arena := a
        printed := some (bytes, a.capacity - (a.fill_ptr - a.start_ptr)) } := by
  have hs := sub64_fill_start hm hi
  obtain ⟨_, h2⟩ := hm
  obtain ⟨h3, h4⟩ := hi
  have h5 : add64 (a.fill_ptr - a.start_ptr) bytes = (a.fill_ptr - a.start_ptr) + bytes :=
    add64_of_lt hrange
  have h6 : sub64 a.capacity (a.fill_ptr - a.start_ptr) =
      a.capacity - (a.fill_ptr - a.start_ptr) := sub64_of_le (by omega) (by omega)
  rw [Arena_alloc_reject (by rw [hs, h5]; omega), hs, h6]

/-- The cursor bounds survive `Arena_alloc` for every size, accepted or
rejected, on a mapped arena. -/
theorem Arena_alloc_inv {a : Arena} (bytes : Nat) (hm : a.mapped) (hi : a.inv) :
    (Arena_alloc a bytes).arena.inv := by
  have hs := sub64_fill_start hm hi
  unfold Arena_alloc
  split
  · exact hi
  · rename_i hacc
    obtain ⟨_, h2⟩ := hm
    obtain ⟨h3, h4⟩ := hi
    rw [hs] at hacc
    unfold Arena.inv
    unfold add64 U64_MOD at *
    simp only
    omega

/-- The cursor bounds survive `Arena_alloc` for every size, accepted or
rejected, as soon as the end address `start_ptr + capacity` is a 64-bit
address; the base may be any address. -/
theorem Arena_alloc_inv_of_end {a : Arena} (bytes : Nat)
    (hend : a.start_ptr + a.capacity < U64_MOD) (hi : a.inv) :
    (Arena_alloc a bytes).arena.inv := by
  obtain ⟨h3, h4⟩ := hi
  have hs : sub64 a.fill_ptr a.start_ptr = a.fill_ptr - a.start_ptr :=
    sub64_of_le h3 (by omega)
  unfold Arena_alloc
  split
  · exact ⟨h3, h4⟩
  · rename_i hacc
    rw [hs] at hacc
    unfold Arena.inv
    unfold add64 U64_MOD at *
    simp only
    omega

/-- Mapped arenas stay mapped under `Arena_alloc`: base and capacity are not
written. -/
theorem Arena_alloc_mapped {a : Arena} (bytes : Nat) (hm : a.mapped) :
    (Arena_alloc a bytes).arena.mapped := by
  unfold Arena.mapped at *
  rw [Arena_alloc_start_ptr, Arena_alloc_capacity]
  exact hm

/-- Running allocations never writes the base. -/
theorem Arena_alloc_all_start_ptr (sizes : List Nat) :
    ∀ a : Arena, (Arena_alloc_all a sizes).start_ptr = a.start_ptr := by
  induction sizes with
  | nil => intro a; rfl
  | cons n ns ih =>
    intro a
    show (Arena_alloc_all (Arena_alloc a n).arena ns).start_ptr = a.start_ptr
    rw [ih, Arena_alloc_start_ptr]

/-- Running allocations never writes the capacity. -/
theorem Arena_alloc_all_capacity (sizes : List Nat) :
    ∀ a : Arena, (Arena_alloc_all a sizes).capacity = a.capacity := by
  induction sizes with
  | nil => intro a; rfl
  | cons n ns ih =>
    intro a
    show (Arena_alloc_all (Arena_alloc a n).arena ns).capacity = a.capacity
    rw [ih, Arena_alloc_capacity]

/-- Regions that lie one after the other share no byte address. -/
theorem regions_disjoint_no_common_byte {p n q m : Nat} (h : regions_disjoint p n q m)
    (x : Nat) : ¬ ((p ≤ x ∧ x < p + n) ∧ (q ≤ x ∧ x < q + m)) := by
  unfold regions_disjoint at h
  omega

/-- Consecutive accepted allocations: when the sizes still fit after what is
already used, every call is accepted and returns a region at or after the
current cursor and inside the arena, and each region ends before the next
ones begin. -/
theorem Arena_alloc_seq_regions (sizes : List Nat) :
    ∀ a : Arena, a.mapped → a.inv →
      (a.fill_ptr - a.start_ptr) + sizes.sum ≤ a.capacity →
      (Arena_alloc_seq a sizes).map Prod.fst = sizes ∧
      (∀ e ∈ Arena_alloc_seq a sizes,
        e.2.memory ≠ NULL ∧ e.2.printed = none ∧ a.fill_ptr ≤ e.2.memory ∧
        e.2.memory + e.1 ≤ a.start_ptr + a.capacity) ∧
      (Arena_alloc_seq a sizes).Pairwise (fun e1 e2 => e1.2.memory + e1.1 ≤ e2.2.memory) := by
  induction sizes with
  | nil =>
    intro a _ _ _
    simp [Arena_alloc_seq]
  | cons n ns ih =>
    intro a hm hi hsum
    rw [List.sum_cons] at hsum
    have hfit : (a.fill_ptr - a.start_ptr) + n ≤ a.capacity := by omega
    have e := Arena_alloc_of_fits hm hi hfit
    have hb := hm.1
    have hi1 := hi.1
    have hi2 := hi.2
    have hm2 : (Arena_alloc a n).arena.mapped := Arena_alloc_mapped n hm
    have hi3 : (Arena_alloc a n).arena.inv := Arena_alloc_inv n hm hi
    have hf : (Arena_alloc a n).arena.fill_ptr = a.fill_ptr + n := by rw [e]
    have hs : (Arena_alloc a n).arena.start_ptr = a.start_ptr := Arena_alloc_start_ptr a n
    have hc : (Arena_alloc a n).arena.capacity = a.capacity := Arena_alloc_capacity a n
    have hsum2 : ((Arena_alloc a n).arena.fill_ptr - (Arena_alloc a n).arena.start_ptr)
        + ns.sum ≤ (Arena_alloc a n).arena.capacity := by
      rw [hf, hs, hc]
      omega
    obtain ⟨ih1, ih2, ih3⟩ := ih (Arena_alloc a n).arena hm2 hi3 hsum2
    rw [hf, hs, hc] at ih2
    have hmem : (Arena_alloc a n).memory = a.fill_ptr := by rw [e]
    have hpr : (Arena_alloc a n).printed = none := by rw [e]
    show List.map Prod.fst ((n, Arena_alloc a n) :: Arena_alloc_seq (Arena_alloc a n).arena ns)
        = n :: ns ∧
      (∀ x ∈ (n, Arena_alloc a n) :: Arena_alloc_seq (Arena_alloc a n).arena ns,
        x.2.memory ≠ NULL ∧ x.2.printed = none ∧ a.fill_ptr ≤ x.2.memory ∧
        x.2.memory + x.1 ≤ a.start_ptr + a.capacity) ∧
      List.Pairwise (fun e1 e2 => e1.2.memory + e1.1 ≤ e2.2.memory)
        ((n, Arena_alloc a n) :: Arena_alloc_seq (Arena_alloc a n).arena ns)
    refine ⟨?_, ?_, ?_⟩
    · rw [List.map_cons, ih1]
    · intro x hx
      rcases List.mem_cons.mp hx with rfl | hx
      · refine ⟨?_, hpr, ?_, ?_⟩
        · show (Arena_alloc a n).memory ≠ NULL
          rw [hmem]
          unfold NULL at *
          omega
        · show a.fill_ptr ≤ (Arena_alloc a n).memory
          rw [hmem]
        · show (Arena_alloc a n).memory + n ≤ a.start_ptr + a.capacity
          rw [hmem]
          omega
      · obtain ⟨q1, q2, q3, q4⟩ := ih2 x hx
        exact ⟨q1, q2, by omega, q4⟩
    · rw [List.pairwise_cons]
      refine ⟨?_, ih3⟩
      intro x hx
      obtain ⟨_, _, q3, _⟩ := ih2 x hx
      show (Arena_alloc a n).memory + n ≤ x.2.memory
      rw [hmem]
      exact q3

/-- When the bytes used plus the request stay in the 64-bit range, the
cursor after `Arena_alloc` is not below the cursor before. -/
theorem Arena_alloc_cursor_ge_of_no_wrap {a : Arena} {bytes : Nat} (hm : a.mapped)
    (hi : a.inv) (hrange : (a.fill_ptr - a.start_ptr) + bytes < U64_MOD) :
    a.fill_ptr ≤ (Arena_alloc a bytes).arena.fill_ptr := by
  rcases Nat.lt_or_ge (a.capacity - (a.fill_ptr - a.start_ptr)) bytes with h | h
  · rw [Arena_alloc_of_too_big hm hi h hrange]
  · have h2 := hi.2
    have hfit : (a.fill_ptr - a.start_ptr) + bytes ≤ a.capacity := by omega
    rw [Arena_alloc_of_fits hm hi hfit]
    exact Nat.le_add_right _ _

/-- Within the cursor bounds `Arena_clear` does not move the cursor up. -/
theorem Arena_clear_cursor_le {a : Arena} (hi : a.inv) :
    (Arena_clear a).fill_ptr ≤ a.fill_ptr := hi.1

/-- Rolling back to a snapshot at or below the cursor does not move the
cursor up. -/
theorem Arena_rollback_cursor_le (a : Arena) {s : Nat} (h : s ≤ a.fill_ptr) :
    (Arena_rollback a s).fill_ptr ≤ a.fill_ptr := h

/-! ## The claims -/

/-- C1 (evaluation at the failing input): on the mapped arena with base 4096,
cursor 4196 and capacity 1024 (924 bytes left), the 64-bit request of
`2^64 - 50` bytes exceeds what is left, yet `Arena_alloc` accepts it: the
sum of the fit test wraps to 50, the call returns the non-null cursor 4196,
prints nothing, and moves the cursor to 4146. -/
theorem C1_alloc_accepts_wrapping_request :
    (Arena.mk 4096 4196 1024).mapped ∧ (Arena.mk 4096 4196 1024).inv ∧
    18446744073709551566 < U64_MOD ∧
    1024 - (4196 - 4096) < 18446744073709551566 ∧
    Arena_alloc (Arena.mk 4096 4196 1024) 18446744073709551566 =
      { memory := 4196, arena := Arena.mk 4096 4146 1024, printed := none } ∧
    (Arena_alloc (Arena.mk 4096 4196 1024) 18446744073709551566).memory ≠ NULL ∧
    (Arena_alloc (Arena.mk 4096 4196 1024) 18446744073709551566).arena ≠
      Arena.mk 4096 4196 1024 := by
  decide

/-- C2: on a mapped arena within its cursor bounds, a request with
`(cursor - base) + size <= capacity` is accepted: the returned pointer is the
cursor before the call and is not `NULL`, nothing is printed, the cursor
afterwards is the old cursor plus exactly `size`, and base and capacity are
unchanged. -/
theorem C2_alloc_bumps_when_fits (a : Arena) (bytes : Nat) (hm : a.mapped) (hi : a.inv)
    (hfit : (a.fill_ptr - a.start_ptr) + bytes ≤ a.capacity) :
    (Arena_alloc a bytes).memory = a.fill_ptr ∧
    (Arena_alloc a bytes).memory ≠ NULL ∧
    (Arena_alloc a bytes).printed = none ∧
    (Arena_alloc a bytes).arena.fill_ptr = a.fill_ptr + bytes ∧
    (Arena_alloc a bytes).arena.start_ptr = a.start_ptr ∧
    (Arena_alloc a bytes).arena.capacity = a.capacity := by
  rw [Arena_alloc_of_fits hm hi hfit]
  refine ⟨rfl, ?_, rfl, rfl, rfl, rfl⟩
  have h1 := hm.1
  have h2 := hi.1
  show a.fill_ptr ≠ NULL
  unfold NULL at *
  omega

/-- C2 at base 4096, cursor 4196, capacity 1024 and a request of 924 bytes. -/
theorem C2_alloc_bumps_when_fits_witness :
    (Arena_alloc (Arena.mk 4096 4196 1024) 924).memory = 4196 ∧
    (Arena_alloc (Arena.mk 4096 4196 1024) 924).memory ≠ NULL ∧
    (Arena_alloc (Arena.mk 4096 4196 1024) 924).printed = none ∧
    (Arena_alloc (Arena.mk 4096 4196 1024) 924).arena.fill_ptr = 4196 + 924 ∧
    (Arena_alloc (Arena.mk 4096 4196 1024) 924).arena.start_ptr = 4096 ∧
    (Arena_alloc (Arena.mk 4096 4196 1024) 924).arena.capacity = 1024 :=
  C2_alloc_bumps_when_fits (Arena.mk 4096 4196 1024) 924 (by decide) (by decide) (by decide)

/-- C4: for every arena state and every list of sizes, taking a snapshot,
running `Arena_alloc` on each size (accepted or rejected) and rolling back
to the snapshot gives back the arena state of snapshot time: same cursor,
same base, same capacity. The scratch sequence of `compile_shader` is the
case of one allocation. -/
theorem C4_snapshot_rollback_restores (a : Arena) (sizes : List Nat) :
    Arena_rollback (Arena_alloc_all (Arena_snapshot a).2 sizes) (Arena_snapshot a).1 = a ∧
    (∀ bytes : Nat, compile_shader_scratch a bytes = a) := by
  have key : ∀ ns : List Nat, Arena_rollback (Arena_alloc_all a ns) a.fill_ptr = a := by
    intro ns
    have h1 := Arena_alloc_all_start_ptr ns a
    have h2 := Arena_alloc_all_capacity ns a
    cases a with
    | mk b f c =>
      cases hx : Arena_alloc_all (Arena.mk b f c) ns with
      | mk b2 f2 c2 =>
        rw [hx] at h1 h2
        simp only at h1 h2
        subst h1 h2
        rfl
  refine ⟨key sizes, ?_⟩
  intro bytes
  exact key [bytes]

/-- C5 (counterexample): the arena that `Arena_init` hands back for the
reservation-failure value `MAP_FAILED` and the capacity `1 MB` of `main`
satisfies `base <= cursor <= base + capacity`, yet after `Arena_alloc` of 16
bytes, which is accepted, the cursor is 15, below the base `2^64 - 1`: the
bounds do not hold after the call. -/
theorem C5_alloc_breaks_bounds_after_failed_reservation :
    (Arena_init MAP_FAILED 1048576).inv ∧
    16 < U64_MOD ∧
    (Arena_alloc (Arena_init MAP_FAILED 1048576) 16).memory = MAP_FAILED ∧
    (Arena_alloc (Arena_init MAP_FAILED 1048576) 16).printed = none ∧
    (Arena_alloc (Arena_init MAP_FAILED 1048576) 16).arena = Arena.mk MAP_FAILED 15 1048576 ∧
    ¬ (Arena_alloc (Arena_init MAP_FAILED 1048576) 16).arena.inv := by
  decide

/-- C5 (amended): the cursor bounds `base <= cursor <= base + capacity` hold
after `Arena_init`; on an arena where they hold they still hold after
`Arena_clear`, after `Arena_rollback` to any snapshot `s` with
`base <= s <= cursor`, and, when the end address `base + capacity` is below
`2^64`, after `Arena_alloc` with any size (accepted or rejected);
`Arena_snapshot` leaves the arena as it is; base and capacity are the same
after each of these operations as before. -/
theorem C5_cursor_bounds_preserved (a : Arena) (hi : a.inv) :
    (∀ r capacity : Nat, (Arena_init r capacity).inv ∧
      (Arena_init r capacity).start_ptr = r ∧ (Arena_init r capacity).capacity = capacity) ∧
    (∀ bytes : Nat, a.start_ptr + a.capacity < U64_MOD → (Arena_alloc a bytes).arena.inv) ∧
    (∀ bytes : Nat, (Arena_alloc a bytes).arena.start_ptr = a.start_ptr ∧
      (Arena_alloc a bytes).arena.capacity = a.capacity) ∧
    ((Arena_clear a).inv ∧ (Arena_clear a).start_ptr = a.start_ptr ∧
      (Arena_clear a).capacity = a.capacity) ∧
    (∀ s : Nat, a.start_ptr ≤ s → s ≤ a.fill_ptr →
      (Arena_rollback a s).inv ∧ (Arena_rollback a s).start_ptr = a.start_ptr ∧
      (Arena_rollback a s).capacity = a.capacity) ∧
    ((Arena_snapshot a).2 = a ∧ (Arena_snapshot a).1 = a.fill_ptr) := by
  refine ⟨?_, ?_, ?_, ?_, ?_, rfl, rfl⟩
  · intro r capacity
    refine ⟨?_, rfl, rfl⟩
    unfold Arena.inv Arena_init
    simp
  · intro bytes hend
    exact Arena_alloc_inv_of_end bytes hend hi
  · intro bytes
    exact ⟨Arena_alloc_start_ptr a bytes, Arena_alloc_capacity a bytes⟩
  · refine ⟨?_, rfl, rfl⟩
    unfold Arena.inv Arena_clear
    simp
  · intro s h1 h2
    refine ⟨?_, rfl, rfl⟩
    have h3 := hi.2
    unfold Arena.inv Arena_rollback
    simp only
    omega

/-- C5 (amended) at base 4096, cursor 4196, capacity 1024, with the end
address 5120 below `2^64`: the bounds hold after an accepted request of 924
bytes, after a rejected one of 925 bytes and after the accepted wrapping
request of `2^64 - 1` bytes, and after a rollback to the snapshot 4100. -/
theorem C5_cursor_bounds_preserved_witness :
    (Arena.mk 4096 4196 1024).inv ∧
    (Arena_alloc (Arena.mk 4096 4196 1024) 924).arena.inv ∧
    (Arena_alloc (Arena.mk 4096 4196 1024) 925).arena.inv ∧
    (Arena_alloc (Arena.mk 4096 4196 1024) 18446744073709551615).arena.inv ∧
    (Arena_clear (Arena.mk 4096 4196 1024)).inv ∧
    (Arena_rollback (Arena.mk 4096 4196 1024) 4100).inv :=
  ⟨by decide,
    (C5_cursor_bounds_preserved (Arena.mk 4096 4196 1024) (by decide)).2.1 924 (by decide),
    (C5_cursor_bounds_preserved (Arena.mk 4096 4196 1024) (by decide)).2.1 925 (by decide),
    (C5_cursor_bounds_preserved (Arena.mk 4096 4196 1024) (by decide)).2.1
      18446744073709551615 (by decide),
    (C5_cursor_bounds_preserved (Arena.mk 4096 4196 1024) (by decide)).2.2.2.1.1,
    ((C5_cursor_bounds_preserved (Arena.mk 4096 4196 1024) (by decide)).2.2.2.2.1 4100
      (by decide) (by decide)).1⟩

/-- C6: on a mapped arena, whatever the cursor is before, after `Arena_clear`
the cursor equals the base, and `Arena_alloc` of `capacity` bytes right after
is accepted: it returns the base pointer, which is not `NULL`, prints
nothing, and leaves the cursor at `base + capacity`. -/
theorem C6_clear_reclaims_capacity (a : Arena) (hm : a.mapped) :
    (Arena_clear a).fill_ptr = a.start_ptr ∧
    (Arena_alloc (Arena_clear a) a.capacity).memory = a.start_ptr ∧
    (Arena_alloc (Arena_clear a) a.capacity).memory ≠ NULL ∧
    (Arena_alloc (Arena_clear a) a.capacity).printed = none ∧
    (Arena_alloc (Arena_clear a) a.capacity).arena.fill_ptr = a.start_ptr + a.capacity := by
  have hm2 : (Arena_clear a).mapped := hm
  have hi2 : (Arena_clear a).inv := by
    unfold Arena.inv Arena_clear
    simp
  have hfit : ((Arena_clear a).fill_ptr - (Arena_clear a).start_ptr) + a.capacity
      ≤ (Arena_clear a).capacity := by
    show a.start_ptr - a.start_ptr + a.capacity ≤ a.capacity
    omega
  rw [Arena_alloc_of_fits hm2 hi2 hfit]
  refine ⟨rfl, rfl, ?_, rfl, rfl⟩
  have h1 := hm.1
  show a.start_ptr ≠ NULL
  unfold NULL at *
  omega

/-- C6 at base 4096, capacity 1024 and a cursor far outside the region. -/
theorem C6_clear_reclaims_capacity_witness :
    (Arena_clear (Arena.mk 4096 99999 1024)).fill_ptr = 4096 ∧
    (Arena_alloc (Arena_clear (Arena.mk 4096 99999 1024)) 1024).memory = 4096 ∧
    (Arena_alloc (Arena_clear (Arena.mk 4096 99999 1024)) 1024).memory ≠ NULL ∧
    (Arena_alloc (Arena_clear (Arena.mk 4096 99999 1024)) 1024).printed = none ∧
    (Arena_alloc (Arena_clear (Arena.mk 4096 99999 1024)) 1024).arena.fill_ptr
      = 4096 + 1024 :=
  C6_clear_reclaims_capacity (Arena.mk 4096 99999 1024) (by decide)

/-- C8 (evaluation at the failing input): on the mapped arena with base 4096,
cursor 4196 and capacity 1024, the 64-bit request of `2^64 - 1` bytes (the
value of `length * sizeof(char)` for `length = -1`) is accepted and leaves
the cursor at 4195, below its previous value 4196. -/
theorem C8_alloc_moves_cursor_backwards :
    (Arena.mk 4096 4196 1024).mapped ∧ (Arena.mk 4096 4196 1024).inv ∧
    18446744073709551615 < U64_MOD ∧
    (Arena_alloc (Arena.mk 4096 4196 1024) 18446744073709551615).memory = 4196 ∧
    (Arena_alloc (Arena.mk 4096 4196 1024) 18446744073709551615).arena.fill_ptr = 4195 ∧
    ¬ ((Arena.mk 4096 4196 1024).fill_ptr ≤
      (Arena_alloc (Arena.mk 4096 4196 1024) 18446744073709551615).arena.fill_ptr) := by
  decide

/-- C9 (counterexample): with the reservation-failure value `MAP_FAILED` as
the result of `mmap` and the capacity `1 MB` that `main` passes,
`Arena_init` hands back an arena whose base and cursor are `MAP_FAILED`, and
that arena is usable: a following `Arena_alloc` of 16 bytes is accepted and
returns `MAP_FAILED` as the allocated pointer. -/
theorem C9_init_hands_back_failed_reservation :
    ¬ (∀ capacity : Nat, ¬ ((Arena_init MAP_FAILED capacity).start_ptr = MAP_FAILED ∧
        (Arena_init MAP_FAILED capacity).fill_ptr = MAP_FAILED)) ∧
    Arena_init MAP_FAILED 1048576 = Arena.mk MAP_FAILED MAP_FAILED 1048576 ∧
    (Arena_alloc (Arena_init MAP_FAILED 1048576) 16).memory = MAP_FAILED ∧
    (Arena_alloc (Arena_init MAP_FAILED 1048576) 16).memory ≠ NULL ∧
    (Arena_alloc (Arena_init MAP_FAILED 1048576) 16).printed = none := by
  refine ⟨?_, by decide, by decide, by decide, by decide⟩
  intro h
  exact h 1048576 ⟨rfl, rfl⟩

/-- C9 (amended): `Arena_init` does not examine the result of the
reservation. For every value `r` returned by `mmap`, the failure value
`MAP_FAILED` included, and every requested capacity, the arena it hands back
has base `r`, cursor `r` and the requested capacity. -/
theorem C9_init_stores_reservation_result (r capacity : Nat) :
    (Arena_init r capacity).start_ptr = r ∧
    (Arena_init r capacity).fill_ptr = r ∧
    (Arena_init r capacity).capacity = capacity ∧
    (Arena_init MAP_FAILED capacity).start_ptr = MAP_FAILED ∧
    (Arena_init MAP_FAILED capacity).fill_ptr = MAP_FAILED :=
  ⟨rfl, rfl, rfl, rfl, rfl⟩

/-- C10: on a mapped arena within its cursor bounds (a full arena and an
arena of capacity 0 included), `Arena_alloc` of 0 bytes returns the current
cursor, which is not `NULL`, prints nothing and leaves the arena exactly as
it was; so a second zero-byte allocation returns the same pointer. -/
theorem C10_zero_byte_alloc_is_noop (a : Arena) (hm : a.mapped) (hi : a.inv) :
    (Arena_alloc a 0).memory = a.fill_ptr ∧
    (Arena_alloc a 0).memory ≠ NULL ∧
    (Arena_alloc a 0).printed = none ∧
    (Arena_alloc a 0).arena = a ∧
    (Arena_alloc (Arena_alloc a 0).arena 0).memory = (Arena_alloc a 0).memory := by
  have hfit : (a.fill_ptr - a.start_ptr) + 0 ≤ a.capacity := by
    have h1 := hi.1
    have h2 := hi.2
    omega
  have e : Arena_alloc a 0 = { memory := a.fill_ptr, arena := a, printed := none } := by
    rw [Arena_alloc_of_fits hm hi hfit]
    cases a
    rfl
  have hnull : a.fill_ptr ≠ NULL := by
    have h1 := hm.1
    have h2 := hi.1
    unfold NULL at *
    omega
  refine ⟨?_, ?_, ?_, ?_, ?_⟩
  · rw [e]
  · rw [e]; exact hnull
  · rw [e]
  · rw [e]
  · rw [e]; show (Arena_alloc a 0).memory = a.fill_ptr; rw [e]

/-- C10 on a full arena (base 4096, capacity 1024, cursor 5120). -/
theorem C10_zero_byte_alloc_is_noop_witness :
    (Arena_alloc (Arena.mk 4096 5120 1024) 0).memory = 5120 ∧
    (Arena_alloc (Arena.mk 4096 5120 1024) 0).memory ≠ NULL ∧
    (Arena_alloc (Arena.mk 4096 5120 1024) 0).printed = none ∧
    (Arena_alloc (Arena.mk 4096 5120 1024) 0).arena = Arena.mk 4096 5120 1024 ∧
    (Arena_alloc (Arena_alloc (Arena.mk 4096 5120 1024) 0).arena 0).memory
      = (Arena_alloc (Arena.mk 4096 5120 1024) 0).memory :=
  C10_zero_byte_alloc_is_noop (Arena.mk 4096 5120 1024) (by decide) (by decide)

/-- C3: starting from an empty arena (`cursor = base`) of capacity `C` on a
mapped region, for every list of sizes whose sum is at most `C`, running
`Arena_alloc` on each size in order accepts every call (one result per size,
a non-null pointer, nothing printed), each returned region
`[p_i, p_i + size_i)` lies within `[base, base + C)`, and for `i ≠ j` the
regions of calls `i` and `j` are disjoint: one ends at or before the start
of the other, and no address belongs to both. -/
theorem C3_consecutive_regions_disjoint (base C : Nat) (sizes : List Nat)
    (hm : (Arena_init base C).mapped) (hsum : sizes.sum ≤ C) :
    (Arena_alloc_seq (Arena_init base C) sizes).map Prod.fst = sizes ∧
    (∀ e ∈ Arena_alloc_seq (Arena_init base C) sizes,
      e.2.memory ≠ NULL ∧ e.2.printed = none ∧
      base ≤ e.2.memory ∧ e.2.memory + e.1 ≤ base + C) ∧
    (∀ (i j : Nat) (e1 e2 : Nat × AllocResult),
      (Arena_alloc_seq (Arena_init base C) sizes)[i]? = some e1 →
      (Arena_alloc_seq (Arena_init base C) sizes)[j]? = some e2 →
      i ≠ j → regions_disjoint e1.2.memory e1.1 e2.2.memory e2.1 ∧
        ∀ x : Nat, ¬ ((e1.2.memory ≤ x ∧ x < e1.2.memory + e1.1) ∧
          (e2.2.memory ≤ x ∧ x < e2.2.memory + e2.1))) := by
  have hi : (Arena_init base C).inv := by
    unfold Arena.inv Arena_init
    simp
  have hs : ((Arena_init base C).fill_ptr - (Arena_init base C).start_ptr) + sizes.sum
      ≤ (Arena_init base C).capacity := by
    show base - base + sizes.sum ≤ C
    omega
  obtain ⟨h1, h2, h3⟩ := Arena_alloc_seq_regions sizes (Arena_init base C) hm hi hs
  refine ⟨h1, h2, ?_⟩
  intro i j e1 e2 hi1 hj1 hne
  rw [List.pairwise_iff_getElem] at h3
  obtain ⟨li, rfl⟩ := List.getElem?_eq_some.mp hi1
  obtain ⟨lj, rfl⟩ := List.getElem?_eq_some.mp hj1
  have hd : regions_disjoint
      (Arena_alloc_seq (Arena_init base C) sizes)[i].2.memory
      (Arena_alloc_seq (Arena_init base C) sizes)[i].1
      (Arena_alloc_seq (Arena_init base C) sizes)[j].2.memory
      (Arena_alloc_seq (Arena_init base C) sizes)[j].1 := by
    unfold regions_disjoint
    rcases Nat.lt_or_gt_of_ne hne with hlt | hgt
    · exact Or.inl (h3 i j li lj hlt)
    · exact Or.inr (h3 j i lj li hgt)
  exact ⟨hd, regions_disjoint_no_common_byte hd⟩

/-- C3 at base 4096, capacity 1024 and the sizes 100, 0, 900, 24. -/
theorem C3_consecutive_regions_disjoint_witness :
    (Arena_alloc_seq (Arena_init 4096 1024) [100, 0, 900, 24]).map Prod.fst
      = [100, 0, 900, 24] ∧
    (∀ e ∈ Arena_alloc_seq (Arena_init 4096 1024) [100, 0, 900, 24],
      e.2.memory ≠ NULL ∧ e.2.printed = none ∧
      4096 ≤ e.2.memory ∧ e.2.memory + e.1 ≤ 4096 + 1024) ∧
    (∀ (i j : Nat) (e1 e2 : Nat × AllocResult),
      (Arena_alloc_seq (Arena_init 4096 1024) [100, 0, 900, 24])[i]? = some e1 →
      (Arena_alloc_seq (Arena_init 4096 1024) [100, 0, 900, 24])[j]? = some e2 →
      i ≠ j → regions_disjoint e1.2.memory e1.1 e2.2.memory e2.1 ∧
        ∀ x : Nat, ¬ ((e1.2.memory ≤ x ∧ x < e1.2.memory + e1.1) ∧
          (e2.2.memory ≤ x ∧ x < e2.2.memory + e2.1))) :=
  C3_consecutive_regions_disjoint 4096 1024 [100, 0, 900, 24] (by decide) (by decide)

/-- C7: the scenario of the specification on an arena initialised with
capacity 1024 on a mapped region at `b`. `alloc(100)` is accepted at offset
0; `alloc(1000)` is rejected, prints 1000 requested and 924 left, and leaves
the cursor at offset 100; the snapshot is offset 100; `alloc(50)` is accepted
at offset 100; the rollback puts the cursor back at offset 100; `alloc(924)`
is accepted at offset 100 and leaves the cursor at offset 1024; `alloc(1)`
is then rejected. -/
theorem C7_scenario (b : Nat) (hm : (Arena_init b 1024).mapped) :
    ((scenario_alloc100 b).memory = b + 0 ∧ (scenario_alloc100 b).memory ≠ NULL) ∧
    ((scenario_alloc1000 b).memory = NULL ∧
      (scenario_alloc1000 b).printed = some (1000, 924) ∧
      (scenario_alloc1000 b).arena.capacity
        - ((scenario_alloc1000 b).arena.fill_ptr - (scenario_alloc1000 b).arena.start_ptr)
        = 924 ∧
      (scenario_alloc1000 b).arena.fill_ptr = b + 100) ∧
    (scenario_snapshot b).1 = b + 100 ∧
    ((scenario_alloc50 b).memory = b + 100 ∧ (scenario_alloc50 b).memory ≠ NULL ∧
      (scenario_alloc50 b).arena.fill_ptr = b + 150) ∧
    (scenario_rollback b).fill_ptr = b + 100 ∧
    ((scenario_alloc924 b).memory = b + 100 ∧ (scenario_alloc924 b).memory ≠ NULL ∧
      (scenario_alloc924 b).arena.fill_ptr = b + 1024) ∧
    ((scenario_alloc1 b).memory = NULL ∧
      (scenario_alloc1 b).printed = some (1, 0) ∧
      (scenario_alloc1 b).arena.fill_ptr = b + 1024) := by
  have hb : 0 < b := hm.1
  have hm0 : (Arena.mk b b 1024).mapped := hm
  have hm1 : (Arena.mk b (b + 100) 1024).mapped := hm
  have hm2 : (Arena.mk b (b + 1024) 1024).mapped := hm
  have hi0 : (Arena.mk b b 1024).inv := ⟨Nat.le_refl b, Nat.le_add_right b 1024⟩
  have hi1 : (Arena.mk b (b + 100) 1024).inv :=
    ⟨Nat.le_add_right b 100, Nat.add_le_add_left (show 100 ≤ 1024 by decide) b⟩
  have hi2 : (Arena.mk b (b + 1024) 1024).inv :=
    ⟨Nat.le_add_right b 1024, Nat.le_refl (b + 1024)⟩
  have e1 : scenario_alloc100 b = ⟨b, Arena.mk b (b + 100) 1024, none⟩ :=
    Arena_alloc_of_fits hm0 hi0
      (by show b - b + 100 ≤ 1024; omega)
  have e2 : scenario_alloc1000 b = ⟨NULL, Arena.mk b (b + 100) 1024, some (1000, 924)⟩ := by
    unfold scenario_alloc1000
    rw [e1]
    have h := @Arena_alloc_of_too_big (Arena.mk b (b + 100) 1024) 1000 hm1
      hi1 (by show 1024 - (b + 100 - b) < 1000; omega)
      (by show b + 100 - b + 1000 < U64_MOD; unfold U64_MOD; omega)
    rw [h]
    have h924 : 1024 - (b + 100 - b) = 924 := by omega
    simp only [h924]
  have e3 : scenario_snapshot b = (b + 100, Arena.mk b (b + 100) 1024) := by
    unfold scenario_snapshot
    rw [e2]
    rfl
  have e4 : scenario_alloc50 b = ⟨b + 100, Arena.mk b (b + 150) 1024, none⟩ := by
    unfold scenario_alloc50
    rw [e3]
    exact Arena_alloc_of_fits hm1 hi1
      (by show b + 100 - b + 50 ≤ 1024; omega)
  have e5 : scenario_rollback b = Arena.mk b (b + 100) 1024 := by
    unfold scenario_rollback
    rw [e4, e3]
    rfl
  have e6 : scenario_alloc924 b = ⟨b + 100, Arena.mk b (b + 1024) 1024, none⟩ := by
    unfold scenario_alloc924
    rw [e5]
    exact Arena_alloc_of_fits hm1 hi1
      (by show b + 100 - b + 924 ≤ 1024; omega)
  have e7 : scenario_alloc1 b = ⟨NULL, Arena.mk b (b + 1024) 1024, some (1, 0)⟩ := by
    unfold scenario_alloc1
    rw [e6]
    have h := @Arena_alloc_of_too_big (Arena.mk b (b + 1024) 1024) 1 hm2
      hi2 (by show 1024 - (b + 1024 - b) < 1; omega)
      (by show b + 1024 - b + 1 < U64_MOD; unfold U64_MOD; omega)
    rw [h]
    have h0 : 1024 - (b + 1024 - b) = 0 := by omega
    simp only [h0]
  rw [e1, e2, e3, e4, e5, e6, e7]
  have n1 : b ≠ NULL := by unfold NULL; omega
  have n2 : b + 100 ≠ NULL := by unfold NULL; omega
  refine ⟨⟨rfl, n1⟩, ⟨rfl, rfl, ?_, rfl⟩, rfl, ⟨rfl, n2, rfl⟩, rfl, ⟨rfl, n2, rfl⟩,
    ⟨rfl, rfl, rfl⟩⟩
  show 1024 - (b + 100 - b) = 924
  omega

/-- C7 on a reservation at address 4096. -/
theorem C7_scenario_witness :
    ((scenario_alloc100 4096).memory = 4096 + 0 ∧ (scenario_alloc100 4096).memory ≠ NULL) ∧
    ((scenario_alloc1000 4096).memory = NULL ∧
      (scenario_alloc1000 4096).printed = some (1000, 924) ∧
      (scenario_alloc1000 4096).arena.capacity
        - ((scenario_alloc1000 4096).arena.fill_ptr
          - (scenario_alloc1000 4096).arena.start_ptr)
        = 924 ∧
      (scenario_alloc1000 4096).arena.fill_ptr = 4096 + 100) ∧
    (scenario_snapshot 4096).1 = 4096 + 100 ∧
    ((scenario_alloc50 4096).memory = 4096 + 100 ∧ (scenario_alloc50 4096).memory ≠ NULL ∧
      (scenario_alloc50 4096).arena.fill_ptr = 4096 + 150) ∧
    (scenario_rollback 4096).fill_ptr = 4096 + 100 ∧
    ((scenario_alloc924 4096).memory = 4096 + 100 ∧ (scenario_alloc924 4096).memory ≠ NULL ∧
      (scenario_alloc924 4096).arena.fill_ptr = 4096 + 1024) ∧
    ((scenario_alloc1 4096).memory = NULL ∧
      (scenario_alloc1 4096).printed = some (1, 0) ∧
      (scenario_alloc1 4096).arena.fill_ptr = 4096 + 1024) :=
  C7_scenario 4096 (by decide)

end ShadyBussiness
